import Mathlib

/-!
Verification of the signup flow in src/app/api/auth/signup/route.ts.

The handler POST is embedded as a pure function: the parsed request body
(or none, when request.json() throws) and the behaviour of the external
persistence collaborators (connectDB, User.findOne, User.create) come in
as arguments, and the HTTP response comes out together with the list of
create calls that were made.  Response payloads are modelled as two-level
JSON objects, which covers every payload the handler builds.  Console
logging is a side effect the handler never observes and is dropped.
-/

namespace Signup

/-- Characters matched by the regex class for whitespace in JavaScript
(ASCII whitespace plus the no-break space), used by the email regex and
by trimming. -/
def jsSpace (c : Char) : Bool :=
  c = ' ' || c = '\t' || c = '\n' || c = '\r' ||
  c = '\x0b' || c = '\x0c' || c = '\xa0'

/-- Lower-cases one character in the ASCII range, as toLowerCase does on
the inputs this flow handles. -/
def jsLowerChar (c : Char) : Char :=
  if 'A' ≤ c ∧ c ≤ 'Z' then Char.ofNat (c.toNat + 32) else c

/-- Embeds String.prototype.toLowerCase restricted to the ASCII range. -/
def jsToLower (s : String) : String :=
  String.mk (s.toList.map jsLowerChar)

/-- Embeds String.prototype.trim: strips leading and trailing whitespace. -/
def jsTrim (s : String) : String :=
  String.mk ((((s.toList.dropWhile jsSpace).reverse).dropWhile jsSpace).reverse)

/-- Splits a character list at the first occurrence of sep: the part
before it, and the part after it when it occurs at all. -/
def splitAtChar (sep : Char) : List Char → List Char × Option (List Char)
  | [] => ([], none)
  | c :: cs =>
    if c = sep then ([], some cs)
    else
      let r := splitAtChar sep cs
      (c :: r.1, r.2)

/-- Embeds the test of the email regex in POST, anchored at both ends: a
nonempty run of characters that are neither whitespace nor an at sign,
one at sign, then a domain part with no whitespace and no further at
sign that contains a dot which is neither its first nor its last
character. -/
def emailRegexTest (s : String) : Bool :=
  match splitAtChar '@' s.toList with
  | (lp, some dom) =>
    (!lp.isEmpty) && lp.all (fun c => !jsSpace c) &&
    dom.all (fun c => !jsSpace c && c != '@') &&
    ((dom.drop 1).dropLast.contains '.')
  | (_, none) => false

/-- Fields of a parsed JSON request body as the destructuring in POST
reads them: a missing key is none.  The model restricts field values to
strings, the type every consumer of these fields expects. -/
structure Body where
  name : Option String
  email : Option String
  password : Option String
  phone : Option String
  role : Option String
  employeeId : Option String
deriving DecidableEq

/-- The UserData record POST hands to User.create. -/
structure UserData where
  name : String
  email : String
  password : String
  phone : Option String
  role : String
  employeeId : Option String
deriving DecidableEq

/-- Observable shape of a thrown value, as the catch block in POST
inspects it: the numeric code property when one is present, the list of
keys of the keyPattern object when one is present, whether the value is
an Error instance, its name, the messages of the entries of its errors
record, and its message. -/
structure JsError where
  code : Option Nat
  keyPattern : Option (List String)
  isError : Bool
  name : String
  errors : List String
  message : String
deriving DecidableEq

/-- Scalar JSON values occurring in the handler's payloads. -/
inductive JLeaf where
  | str (s : String)
  | num (n : Nat)
  | bool (b : Bool)
deriving DecidableEq

/-- A JSON value that is either a scalar or a flat object; every payload
the handler builds nests at most one object level. -/
inductive JVal where
  | leaf (v : JLeaf)
  | obj (fields : List (String × JLeaf))
deriving DecidableEq

/-- A JSON response body: the top-level object of the payload. -/
abbrev JBody := List (String × JVal)

/-- An HTTP response as NextResponse.json builds it: a status code and a
JSON body. -/
structure Resp where
  status : Nat
  body : JBody
deriving DecidableEq

/-- Embeds handleError: a body holding a single message field, with the
given status, defaulting to 400. -/
def handleError (message : String) (status : Nat := 400) : Resp :=
  { status := status, body := [("message", JVal.leaf (JLeaf.str message))] }

/-- Field name extracted from a duplicate-key error: the first key of
the keyPattern object when present.  When keyPattern is absent or has no
keys, the indexing yields undefined and the template literal in the
source stringifies it to the text undefined. -/
def dupField (kp : Option (List String)) : String :=
  ((kp.getD []).head?).getD "undefined"

/-- Embeds Array.prototype.join with the separator used in the source, a
comma followed by a space. -/
def joinComma : List String → String
  | [] => ""
  | [m] => m
  | m :: rest => m ++ ", " ++ joinComma rest

/-- Embeds the catch block of the database phase of POST: a code of
11000 is a duplicate key, then an Error named ValidationError has its
error messages joined, and anything else becomes a 500 whose detail is
the message when the value is an Error instance. -/
def mapDbError (e : JsError) : Resp :=
  if e.code = some 11000 then
    handleError (dupField e.keyPattern ++ " already exists")
  else if e.isError = true ∧ e.name = "ValidationError" then
    handleError (joinComma e.errors)
  else
    handleError ("Database operation failed: " ++
      (if e.isError then e.message else "Unknown error occurred")) 500

/-- Embeds the construction of userData in POST: trimmed name,
lower-cased then trimmed email, the password as given, the phone trimmed
when present, the role defaulting to user when the body omits it, and
the employeeId only when it is truthy. -/
def mkUserData (b : Body) (name email password : String) : UserData :=
  { name := jsTrim name
    email := jsTrim (jsToLower email)
    password := password
    phone := b.phone.map jsTrim
    role := b.role.getD "user"
    employeeId :=
      match b.employeeId with
      | some eid => if eid = "" then none else some eid
      | none => none }

/-- Behaviour of the external persistence collaborators for one request:
the outcome of connectDB (none is success), the emails for which findOne
finds an existing record, and the outcome of User.create on given data,
either a thrown value or the generated identifier. -/
structure DbWorld where
  connectResult : Option JsError
  store : List String
  createResult : UserData → Sum JsError Nat

/-- Record view of the created document as user.toObject returns it: the
generated identifier plus the data handed to create.  The password value
is hashed by a pre-save hook external to this flow; the field is present
either way, which is all the handler observes before deleting it. -/
def toObject (id : Nat) (ud : UserData) : List (String × JLeaf) :=
  [("_id", JLeaf.num id), ("name", JLeaf.str ud.name),
   ("email", JLeaf.str ud.email), ("password", JLeaf.str ud.password)] ++
  (match ud.phone with
   | some p => [("phone", JLeaf.str p)]
   | none => []) ++
  [("role", JLeaf.str ud.role)] ++
  (match ud.employeeId with
   | some eid => [("employeeId", JLeaf.str eid)]
   | none => [])

/-- Embeds the delete of a field on a plain object: every binding under
that key is removed. -/
def deleteKey (k : String) (fields : List (String × JLeaf)) : List (String × JLeaf) :=
  fields.filter (fun f => f.1 ≠ k)

/-- The 201 response POST builds on success: the created record with the
password field deleted, a success message, and a success flag. -/
def successResp (id : Nat) (ud : UserData) : Resp :=
  { status := 201
    body := [("user", JVal.obj (deleteKey "password" (toObject id ud))),
             ("message", JVal.leaf (JLeaf.str "User created successfully")),
             ("success", JVal.leaf (JLeaf.bool true))] }

/-- Embeds the inner try block of POST: connect, the duplicate pre-check
with findOne on the raw email, then create; a thrown value is mapped by
the catch block.  The second component records the data of every create
call made. -/
def dbPhase (b : Body) (name email password : String) (w : DbWorld) :
    Resp × List UserData :=
  match w.connectResult with
  | some e => (mapDbError e, [])
  | none =>
    if email ∈ w.store then
      (handleError "User with this email already exists", [])
    else
      let ud := mkUserData b name email password
      match w.createResult ud with
      | Sum.inl e => (mapDbError e, [ud])
      | Sum.inr id => (successResp id ud, [ud])

/-- Embeds POST: body parsing, the three validation checks in source
order, then the database phase.  The argument none stands for a body on
which request.json() throws.  The second component lists the create
calls made while handling the request. -/
def signupPost (raw : Option Body) (w : DbWorld) : Resp × List UserData :=
  match raw with
  | none => (handleError "Invalid JSON payload", [])
  | some b =>
    match b.name, b.email, b.password with
    | some name, some email, some password =>
      if name = "" ∨ email = "" ∨ password = "" then
        (handleError "Name, email, and password are required", [])
      else if emailRegexTest email = false then
        (handleError "Please enter a valid email address", [])
      else if password.length < 6 then
        (handleError "Password must be at least 6 characters long", [])
      else
        dbPhase b name email password w
    | _, _, _ => (handleError "Name, email, and password are required", [])

/-- True of a JSON value that is an object with a binding under the
given key. -/
def jvalHasKey (k : String) : JVal → Bool
  | JVal.leaf _ => false
  | JVal.obj fields => fields.any (fun f => f.1 == k)

/-- True of a response body with a binding under the given key at its
top level or inside a nested object. -/
def bodyHasKey (k : String) (b : JBody) : Bool :=
  b.any (fun f => f.1 == k || jvalHasKey k f.2)

/-- Conditions under which POST reaches the database phase: the three
required fields present and non-empty, the email passing the regex, the
password at least 6 characters long. -/
def validFields (b : Body) (name email password : String) : Prop :=
  b.name = some name ∧ b.email = some email ∧ b.password = some password ∧
  name ≠ "" ∧ email ≠ "" ∧ password ≠ "" ∧
  emailRegexTest email = true ∧ ¬ password.length < 6

instance (b : Body) (name email password : String) :
    Decidable (validFields b name email password) := by
  unfold validFields
  infer_instance

end Signup

namespace Signup

lemma signupPost_valid (b : Body) (n em p : String) (w : DbWorld)
    (h : validFields b n em p) :
    signupPost (some b) w = dbPhase b n em p w := by
  obtain ⟨h1, h2, h3, h4, h5, h6, h7, h8⟩ := h
  simp [signupPost, h1, h2, h3, h4, h5, h6, h7, h8]

lemma mapDbError_eq_handleError (e : JsError) :
    ∃ m st, mapDbError e = handleError m st ∧ (st = 400 ∨ st = 500) := by
  unfold mapDbError
  split
  · exact ⟨_, _, rfl, Or.inl rfl⟩
  · split
    · exact ⟨_, _, rfl, Or.inl rfl⟩
    · exact ⟨_, _, rfl, Or.inr rfl⟩

lemma signupPost_resp_cases (raw : Option Body) (w : DbWorld) :
    (∃ m st, (signupPost raw w).1 = handleError m st ∧ (st = 400 ∨ st = 500)) ∨
    (∃ id ud, (signupPost raw w).1 = successResp id ud) := by
  rcases raw with _ | b
  · exact Or.inl ⟨"Invalid JSON payload", 400, rfl, Or.inl rfl⟩
  · rcases hn : b.name with _ | n
    · refine Or.inl ⟨"Name, email, and password are required", 400, ?_, Or.inl rfl⟩
      simp [signupPost, hn]
    · rcases he : b.email with _ | em
      · refine Or.inl ⟨"Name, email, and password are required", 400, ?_, Or.inl rfl⟩
        simp [signupPost, hn, he]
      · rcases hp : b.password with _ | p
        · refine Or.inl ⟨"Name, email, and password are required", 400, ?_, Or.inl rfl⟩
          simp [signupPost, hn, he, hp]
        · by_cases h1 : n = "" ∨ em = "" ∨ p = ""
          · refine Or.inl ⟨"Name, email, and password are required", 400, ?_, Or.inl rfl⟩
            simp [signupPost, hn, he, hp, h1]
          · by_cases h2 : emailRegexTest em = false
            · refine Or.inl ⟨"Please enter a valid email address", 400, ?_, Or.inl rfl⟩
              simp [signupPost, hn, he, hp, h1, h2]
            · by_cases h3 : p.length < 6
              · refine Or.inl ⟨"Password must be at least 6 characters long", 400, ?_, Or.inl rfl⟩
                simp [signupPost, hn, he, hp, h1, h2, h3]
              · have hsp : signupPost (some b) w = dbPhase b n em p w := by
                  simp [signupPost, hn, he, hp, h1, h2, h3]
                rw [hsp]
                rcases hc : w.connectResult with _ | e
                · by_cases hm : em ∈ w.store
                  · refine Or.inl ⟨"User with this email already exists", 400, ?_, Or.inl rfl⟩
                    simp [dbPhase, hc, hm]
                  · rcases hcr : w.createResult (mkUserData b n em p) with e | id
                    · obtain ⟨m, st, hme, hst⟩ := mapDbError_eq_handleError e
                      refine Or.inl ⟨m, st, ?_, hst⟩
                      rw [← hme]
                      simp [dbPhase, hc, hm, hcr]
                    · refine Or.inr ⟨id, mkUserData b n em p, ?_⟩
                      simp [dbPhase, hc, hm, hcr]
                · obtain ⟨m, st, hme, hst⟩ := mapDbError_eq_handleError e
                  refine Or.inl ⟨m, st, ?_, hst⟩
                  rw [← hme]
                  simp [dbPhase, hc]

end Signup

namespace Signup

lemma signupPost_mem_valid (raw : Option Body) (w : DbWorld) (ud : UserData)
    (h : ud ∈ (signupPost raw w).2) :
    ∃ b n em p, raw = some b ∧ validFields b n em p ∧
      signupPost raw w = dbPhase b n em p w := by
  rcases raw with _ | b
  · simp [signupPost] at h
  · rcases hn : b.name with _ | n
    · simp [signupPost, hn] at h
    · rcases he : b.email with _ | em
      · simp [signupPost, hn, he] at h
      · rcases hp : b.password with _ | p
        · simp [signupPost, hn, he, hp] at h
        · by_cases h1 : n = "" ∨ em = "" ∨ p = ""
          · simp [signupPost, hn, he, hp, h1] at h
          · by_cases h2 : emailRegexTest em = false
            · simp [signupPost, hn, he, hp, h1, h2] at h
            · by_cases h3 : p.length < 6
              · simp [signupPost, hn, he, hp, h1, h2, h3] at h
              · have hE : emailRegexTest em = true := by
                  cases hEE : emailRegexTest em
                  · exact absurd hEE h2
                  · rfl
                have hsp : signupPost (some b) w = dbPhase b n em p w := by
                  simp [signupPost, hn, he, hp, h1, h2, h3]
                push_neg at h1
                exact ⟨b, n, em, p, rfl, ⟨hn, he, hp, h1.1, h1.2.1, h1.2.2, hE, h3⟩, hsp⟩

lemma dbPhase_create_spec (b : Body) (n em p : String) (w : DbWorld) (ud : UserData)
    (h : ud ∈ (dbPhase b n em p w).2) :
    w.connectResult = none ∧ em ∉ w.store ∧ ud = mkUserData b n em p ∧
    ((∃ e, w.createResult ud = Sum.inl e ∧ (dbPhase b n em p w).1 = mapDbError e) ∨
     (∃ id, w.createResult ud = Sum.inr id ∧ (dbPhase b n em p w).1 = successResp id ud)) := by
  rcases hc : w.connectResult with _ | e
  · by_cases hm : em ∈ w.store
    · simp [dbPhase, hc, hm] at h
    · rcases hcr : w.createResult (mkUserData b n em p) with e | id
      · have hres : dbPhase b n em p w = (mapDbError e, [mkUserData b n em p]) := by
          simp [dbPhase, hc, hm, hcr]
        rw [hres] at h
        simp at h
        subst h
        exact ⟨rfl, hm, rfl, Or.inl ⟨e, hcr, by rw [hres]⟩⟩
      · have hres : dbPhase b n em p w = (successResp id (mkUserData b n em p), [mkUserData b n em p]) := by
          simp [dbPhase, hc, hm, hcr]
        rw [hres] at h
        simp at h
        subst h
        exact ⟨rfl, hm, rfl, Or.inr ⟨id, hcr, by rw [hres]⟩⟩
  · simp [dbPhase, hc] at h

lemma any_filter_ne (k : String) (l : List (String × JLeaf)) :
    (l.filter (fun f => f.1 ≠ k)).any (fun f => f.1 == k) = false := by
  rw [List.any_eq_false]
  intro f hf
  rw [List.mem_filter] at hf
  simpa using hf.2

lemma bodyHasKey_password_handleError (m : String) (st : Nat) :
    bodyHasKey "password" (handleError m st).body = false := by
  simp [handleError, bodyHasKey, jvalHasKey]

lemma bodyHasKey_password_successResp (id : Nat) (ud : UserData) :
    bodyHasKey "password" (successResp id ud).body = false := by
  simp [successResp, bodyHasKey, jvalHasKey, deleteKey, any_filter_ne]

end Signup

namespace Signup

/-- Claim C1: a request whose email the store already holds gets, once it
passes validation and the connection succeeds, status 400 with the message
"User with this email already exists"; and any request whose email the
store already holds triggers no create call, so no second record for that
email is created. -/
theorem existing_email_conflict (b : Body) (n em p : String) (w : DbWorld) :
    (validFields b n em p → w.connectResult = none → em ∈ w.store →
      signupPost (some b) w =
        (handleError "User with this email already exists" 400, [])) ∧
    (b.email = some em → em ∈ w.store → (signupPost (some b) w).2 = []) := by
  constructor
  · intro hv hc hm
    rw [signupPost_valid b n em p w hv]
    simp [dbPhase, hc, hm]
  · intro hbe hm
    by_contra hne
    obtain ⟨ud, hud⟩ := List.exists_mem_of_ne_nil _ hne
    obtain ⟨b', n', em', p', hb, hv, hsp⟩ := signupPost_mem_valid (some b) w ud hud
    injection hb with hb'
    subst hb'
    have hem : em' = em := by
      have := hv.2.1
      rw [hbe] at this
      injection this with h
      exact h.symm
    rw [hsp] at hud
    obtain ⟨_, hm', _, _⟩ := dbPhase_create_spec b n' em' p' w ud hud
    rw [hem] at hm'
    exact hm' hm

def bOk : Body :=
  { name := some "A", email := some "a@b.com", password := some "secret1",
    phone := none, role := none, employeeId := none }

def w1 : DbWorld :=
  { connectResult := none, store := ["a@b.com"],
    createResult := fun _ => Sum.inr 0 }

/-- Concrete run of existing_email_conflict: a valid request for an email
already stored answers 400 with the conflict message and makes no create
call. -/
theorem existing_email_conflict_witness :
    validFields bOk "A" "a@b.com" "secret1" ∧ "a@b.com" ∈ w1.store ∧
    signupPost (some bOk) w1 =
      (handleError "User with this email already exists" 400, []) ∧
    (signupPost (some bOk) w1).2 = [] :=
  ⟨by decide, by decide,
   (existing_email_conflict bOk "A" "a@b.com" "secret1" w1).1 (by decide) rfl (by decide),
   (existing_email_conflict bOk "A" "a@b.com" "secret1" w1).2 rfl (by decide)⟩

/-- Claim C2: a valid, unique signup answers 201 with a body holding the
created record stripped of its password field, the message "User created
successfully" and a true success flag; the returned user object carries no
password key. -/
theorem signup_success (b : Body) (n em p : String) (w : DbWorld) (id : Nat)
    (hv : validFields b n em p) (hc : w.connectResult = none)
    (hm : em ∉ w.store)
    (hcr : w.createResult (mkUserData b n em p) = Sum.inr id) :
    signupPost (some b) w =
      ({ status := 201
         body := [("user", JVal.obj (deleteKey "password" (toObject id (mkUserData b n em p)))),
                  ("message", JVal.leaf (JLeaf.str "User created successfully")),
                  ("success", JVal.leaf (JLeaf.bool true))] },
       [mkUserData b n em p]) ∧
    jvalHasKey "password"
      (JVal.obj (deleteKey "password" (toObject id (mkUserData b n em p)))) = false := by
  constructor
  · rw [signupPost_valid b n em p w hv]
    simp [dbPhase, hc, hm, hcr, successResp]
  · simp [jvalHasKey, deleteKey, any_filter_ne]

def w2 : DbWorld :=
  { connectResult := none, store := [], createResult := fun _ => Sum.inr 7 }

/-- Concrete run of signup_success: the sample valid unique input is
answered with 201 and a password-free user object. -/
theorem signup_success_witness :
    signupPost (some bOk) w2 =
      ({ status := 201
         body := [("user", JVal.obj (deleteKey "password" (toObject 7 (mkUserData bOk "A" "a@b.com" "secret1")))),
                  ("message", JVal.leaf (JLeaf.str "User created successfully")),
                  ("success", JVal.leaf (JLeaf.bool true))] },
       [mkUserData bOk "A" "a@b.com" "secret1"]) ∧
    jvalHasKey "password"
      (JVal.obj (deleteKey "password" (toObject 7 (mkUserData bOk "A" "a@b.com" "secret1")))) = false :=
  signup_success bOk "A" "a@b.com" "secret1" w2 7 (by decide) rfl (by decide) rfl

/-- Claim C3: no response payload of the signup flow ever carries a
password field, neither at its top level nor inside the returned user
object, on any path. -/
theorem password_never_in_response (raw : Option Body) (w : DbWorld) :
    bodyHasKey "password" (signupPost raw w).1.body = false := by
  rcases signupPost_resp_cases raw w with ⟨m, st, hEq, _⟩ | ⟨id, ud, hEq⟩
  · rw [hEq]
    exact bodyHasKey_password_handleError m st
  · rw [hEq]
    exact bodyHasKey_password_successResp id ud

end Signup

namespace Signup

/-- Claim C4: the validation rules fire in source order, each answering 400
with its message and making no persistence call: an unparsable body, then a
missing or empty required field, then an email failing the regex, then a
password shorter than 6 characters. -/
theorem validation_precedence :
    (∀ w : DbWorld,
      signupPost none w = (handleError "Invalid JSON payload" 400, [])) ∧
    (∀ (b : Body) (w : DbWorld),
      (b.name = none ∨ b.name = some "" ∨ b.email = none ∨ b.email = some "" ∨
       b.password = none ∨ b.password = some "") →
      signupPost (some b) w =
        (handleError "Name, email, and password are required" 400, [])) ∧
    (∀ (b : Body) (n em p : String) (w : DbWorld),
      b.name = some n → b.email = some em → b.password = some p →
      n ≠ "" → em ≠ "" → p ≠ "" → emailRegexTest em = false →
      signupPost (some b) w =
        (handleError "Please enter a valid email address" 400, [])) ∧
    (∀ (b : Body) (n em p : String) (w : DbWorld),
      b.name = some n → b.email = some em → b.password = some p →
      n ≠ "" → em ≠ "" → p ≠ "" → emailRegexTest em = true → p.length < 6 →
      signupPost (some b) w =
        (handleError "Password must be at least 6 characters long" 400, [])) := by
  refine ⟨fun w => rfl, ?_, ?_, ?_⟩
  · rintro b w h
    rcases hn : b.name with _ | n <;> rcases he : b.email with _ | em <;>
      rcases hp : b.password with _ | p <;>
      simp_all [signupPost]
  · intro b n em p w hn he hp h4 h5 h6 hreg
    simp [signupPost, hn, he, hp, h4, h5, h6, hreg]
  · intro b n em p w hn he hp h4 h5 h6 hreg hlen
    simp [signupPost, hn, he, hp, h4, h5, h6, hreg, hlen]

def wAny : DbWorld :=
  { connectResult := none, store := [], createResult := fun _ => Sum.inr 0 }

def bMissing : Body :=
  { name := none, email := some "a@b.com", password := some "secret1",
    phone := none, role := none, employeeId := none }

def bBadEmail : Body :=
  { name := some "A", email := some "nope", password := some "secret1",
    phone := none, role := none, employeeId := none }

def bShortPw : Body :=
  { name := some "A", email := some "a@b.com", password := some "abc",
    phone := none, role := none, employeeId := none }

/-- Concrete runs of validation_precedence: each of the four validation
failures at a sample input. -/
theorem validation_precedence_witness :
    signupPost none wAny = (handleError "Invalid JSON payload" 400, []) ∧
    signupPost (some bMissing) wAny =
      (handleError "Name, email, and password are required" 400, []) ∧
    signupPost (some bBadEmail) wAny =
      (handleError "Please enter a valid email address" 400, []) ∧
    signupPost (some bShortPw) wAny =
      (handleError "Password must be at least 6 characters long" 400, []) :=
  ⟨validation_precedence.1 wAny,
   validation_precedence.2.1 bMissing wAny (Or.inl rfl),
   validation_precedence.2.2.1 bBadEmail "A" "nope" "secret1" wAny rfl rfl rfl
     (by decide) (by decide) (by decide) (by decide),
   validation_precedence.2.2.2 bShortPw "A" "a@b.com" "abc" wAny rfl rfl rfl
     (by decide) (by decide) (by decide) (by decide) (by decide)⟩

/-- Modelled from the spec: the role enumeration of the User model
(src/models/User is not among the provided sources), with values user,
partner and admin. -/
def specRoleEnum : List String := ["user", "partner", "admin"]

/-- Modelled from the spec: a persistence collaborator whose create
enforces the role enumeration of the User schema, failing on any record
whose role lies outside it. -/
def schemaRejectsBadRole (w : DbWorld) : Prop :=
  ∀ ud : UserData, ud.role ∉ specRoleEnum → (w.createResult ud).isLeft = true

/-- Claim C5: every record handed to create carries role user when the
body omits the role; and when create enforces the role enumeration of the
spec, the role of every successfully persisted record is user, partner or
admin. -/
theorem role_enum_and_default (b : Body) (w : DbWorld) (ud : UserData)
    (h : ud ∈ (signupPost (some b) w).2) :
    (b.role = none → ud.role = "user") ∧
    (schemaRejectsBadRole w → (signupPost (some b) w).1.status = 201 →
      ud.role ∈ specRoleEnum) := by
  obtain ⟨b', n, em, p, hb, hv, hsp⟩ := signupPost_mem_valid (some b) w ud h
  injection hb with hb'
  subst hb'
  rw [hsp] at h
  obtain ⟨hc, hm, hud, hcr⟩ := dbPhase_create_spec b n em p w ud h
  constructor
  · intro hrole
    rw [hud]
    simp [mkUserData, hrole]
  · intro hschema h201
    by_contra hbad
    have hleft := hschema ud hbad
    rcases hcr with ⟨e, hce, hres⟩ | ⟨id, hce, hres⟩
    · rw [hsp, hres] at h201
      obtain ⟨m, st, hme, hst⟩ := mapDbError_eq_handleError e
      rw [hme] at h201
      rcases hst with rfl | rfl <;> simp [handleError] at h201
    · rw [hce] at hleft
      simp at hleft

def e5 : JsError :=
  { code := none, keyPattern := none, isError := true,
    name := "ValidationError", errors := ["role is not a valid enum value"],
    message := "User validation failed" }

def w5 : DbWorld :=
  { connectResult := none, store := [],
    createResult := fun ud =>
      if ud.role ∈ specRoleEnum then Sum.inr 1 else Sum.inl e5 }

/-- Concrete run of role_enum_and_default: the created record of a body
without a role carries role user, inside the enumeration. -/
theorem role_enum_and_default_witness :
    mkUserData bOk "A" "a@b.com" "secret1" ∈ (signupPost (some bOk) w5).2 ∧
    (mkUserData bOk "A" "a@b.com" "secret1").role = "user" ∧
    (mkUserData bOk "A" "a@b.com" "secret1").role ∈ specRoleEnum := by
  have hmem : mkUserData bOk "A" "a@b.com" "secret1" ∈ (signupPost (some bOk) w5).2 := by
    decide
  have hschema : schemaRejectsBadRole w5 := by
    intro ud hud
    simp only [w5]
    rw [if_neg hud]
    rfl
  exact ⟨hmem,
    (role_enum_and_default bOk w5 (mkUserData bOk "A" "a@b.com" "secret1") hmem).1 rfl,
    (role_enum_and_default bOk w5 (mkUserData bOk "A" "a@b.com" "secret1") hmem).2
      hschema (by decide)⟩

end Signup

namespace Signup

/-- Claim C6: a create failure carrying code 11000 and a keyPattern with a
first field answers 400 with the message naming that field followed by
" already exists". -/
theorem duplicate_key_response (b : Body) (n em p : String) (w : DbWorld)
    (e : JsError) (f : String) (fs : List String)
    (hv : validFields b n em p) (hc : w.connectResult = none)
    (hm : em ∉ w.store)
    (hcr : w.createResult (mkUserData b n em p) = Sum.inl e)
    (hcode : e.code = some 11000) (hkp : e.keyPattern = some (f :: fs)) :
    signupPost (some b) w =
      (handleError (f ++ " already exists") 400, [mkUserData b n em p]) := by
  rw [signupPost_valid b n em p w hv]
  simp [dbPhase, hc, hm, hcr, mapDbError, hcode, hkp, dupField]

def e6 : JsError :=
  { code := some 11000, keyPattern := some ["email"], isError := true,
    name := "MongoServerError", errors := [],
    message := "E11000 duplicate key error" }

def w6 : DbWorld :=
  { connectResult := none, store := [], createResult := fun _ => Sum.inl e6 }

/-- Concrete run of duplicate_key_response: a duplicate key on the email
field answers 400 with the message naming email. -/
theorem duplicate_key_response_witness :
    signupPost (some bOk) w6 =
      (handleError "email already exists" 400,
       [mkUserData bOk "A" "a@b.com" "secret1"]) := by
  have h := duplicate_key_response bOk "A" "a@b.com" "secret1" w6 e6 "email" []
    (by decide) rfl (by decide) rfl rfl rfl
  simpa using h

/-- Claim C7: a create failure that is an Error named ValidationError and
carries no duplicate-key code answers 400 with its individual messages
joined by a comma and a space. -/
theorem schema_validation_response (b : Body) (n em p : String) (w : DbWorld)
    (e : JsError)
    (hv : validFields b n em p) (hc : w.connectResult = none)
    (hm : em ∉ w.store)
    (hcr : w.createResult (mkUserData b n em p) = Sum.inl e)
    (hcode : e.code = none) (hise : e.isError = true)
    (hname : e.name = "ValidationError") :
    signupPost (some b) w =
      (handleError (joinComma e.errors) 400, [mkUserData b n em p]) := by
  rw [signupPost_valid b n em p w hv]
  simp [dbPhase, hc, hm, hcr, mapDbError, hcode, hise, hname]

def e7 : JsError :=
  { code := none, keyPattern := none, isError := true,
    name := "ValidationError",
    errors := ["Path phone is invalid", "Path role is invalid"],
    message := "User validation failed" }

def w7 : DbWorld :=
  { connectResult := none, store := [], createResult := fun _ => Sum.inl e7 }

/-- Concrete run of schema_validation_response: two schema messages come
back joined by a comma and a space in a 400 response. -/
theorem schema_validation_response_witness :
    signupPost (some bOk) w7 =
      (handleError "Path phone is invalid, Path role is invalid" 400,
       [mkUserData bOk "A" "a@b.com" "secret1"]) := by
  have h := schema_validation_response bOk "A" "a@b.com" "secret1" w7 e7
    (by decide) rfl (by decide) rfl rfl rfl rfl
  simpa [joinComma, e7] using h

/-- Claim C8: a persistence-phase failure that is neither a duplicate key
nor a ValidationError answers 500 with the message prefixed by "Database
operation failed: " followed by the error's message, both when connecting
fails and when create fails; and every response of the flow carries status
400, 500 or 201, so no fault leaves the boundary unmapped. -/
theorem db_failure_response (e : JsError)
    (hcode : e.code ≠ some 11000)
    (hnotval : ¬ (e.isError = true ∧ e.name = "ValidationError"))
    (hise : e.isError = true) :
    (∀ (b : Body) (n em p : String) (w : DbWorld), validFields b n em p →
      w.connectResult = some e →
      signupPost (some b) w =
        (handleError ("Database operation failed: " ++ e.message) 500, [])) ∧
    (∀ (b : Body) (n em p : String) (w : DbWorld), validFields b n em p →
      w.connectResult = none → em ∉ w.store →
      w.createResult (mkUserData b n em p) = Sum.inl e →
      signupPost (some b) w =
        (handleError ("Database operation failed: " ++ e.message) 500,
         [mkUserData b n em p])) ∧
    (∀ (raw : Option Body) (w : DbWorld),
      (signupPost raw w).1.status = 400 ∨ (signupPost raw w).1.status = 500 ∨
      (signupPost raw w).1.status = 201) := by
  refine ⟨?_, ?_, ?_⟩
  · intro b n em p w hv hc
    have hnm : e.name ≠ "ValidationError" := fun hn => hnotval ⟨hise, hn⟩
    rw [signupPost_valid b n em p w hv]
    simp [dbPhase, hc, mapDbError, hcode, hnm, hise]
  · intro b n em p w hv hc hm hcr
    have hnm : e.name ≠ "ValidationError" := fun hn => hnotval ⟨hise, hn⟩
    rw [signupPost_valid b n em p w hv]
    simp [dbPhase, hc, hm, hcr, mapDbError, hcode, hnm, hise]
  · intro raw w
    rcases signupPost_resp_cases raw w with ⟨m, st, hEq, hst⟩ | ⟨id, ud, hEq⟩
    · rw [hEq]
      rcases hst with rfl | rfl
      · exact Or.inl rfl
      · exact Or.inr (Or.inl rfl)
    · rw [hEq]
      exact Or.inr (Or.inr rfl)

def e8 : JsError :=
  { code := none, keyPattern := none, isError := true,
    name := "MongooseServerSelectionError", errors := [],
    message := "connect ECONNREFUSED" }

def w8 : DbWorld :=
  { connectResult := some e8, store := [], createResult := fun _ => Sum.inr 0 }

/-- Concrete run of db_failure_response: a connection failure answers 500
with the detailed message, and the status of that response is 500. -/
theorem db_failure_response_witness :
    signupPost (some bOk) w8 =
      (handleError "Database operation failed: connect ECONNREFUSED" 500, []) ∧
    ((signupPost (some bOk) w8).1.status = 400 ∨
     (signupPost (some bOk) w8).1.status = 500 ∨
     (signupPost (some bOk) w8).1.status = 201) := by
  have h := (db_failure_response e8 (by decide) (by decide) rfl).1
    bOk "A" "a@b.com" "secret1" w8 (by decide) rfl
  refine ⟨by simpa [e8] using h, ?_⟩
  exact (db_failure_response e8 (by decide) (by decide) rfl).2.2 (some bOk) w8

/-- Claim C9: every record handed to create is normalized: its name is the
trimmed request name, its email the lower-cased then trimmed request
email, and its phone the trimmed request phone when one was given; the
embedded flow is a pure function, so validation has no side effects. -/
theorem persisted_record_normalized (b : Body) (w : DbWorld) (ud : UserData)
    (h : ud ∈ (signupPost (some b) w).2) :
    ∃ n em, b.name = some n ∧ b.email = some em ∧
      ud.name = jsTrim n ∧ ud.email = jsTrim (jsToLower em) ∧
      ud.phone = b.phone.map jsTrim := by
  obtain ⟨b', n, em, p, hb, hv, hsp⟩ := signupPost_mem_valid (some b) w ud h
  injection hb with hb'
  subst hb'
  rw [hsp] at h
  obtain ⟨_, _, hud, _⟩ := dbPhase_create_spec b n em p w ud h
  exact ⟨n, em, hv.1, hv.2.1, by simp [hud, mkUserData], by simp [hud, mkUserData],
    by simp [hud, mkUserData]⟩

def bRaw : Body :=
  { name := some " A ", email := some "A@B.com", password := some "secret1",
    phone := some " 123 ", role := none, employeeId := none }

def w9 : DbWorld :=
  { connectResult := none, store := [], createResult := fun _ => Sum.inr 3 }

/-- Concrete run of persisted_record_normalized: a body with padded name
and phone and a mixed-case email leads to a trimmed, lower-cased create
call. -/
theorem persisted_record_normalized_witness :
    mkUserData bRaw " A " "A@B.com" "secret1" ∈ (signupPost (some bRaw) w9).2 ∧
    ∃ n em, bRaw.name = some n ∧ bRaw.email = some em ∧
      (mkUserData bRaw " A " "A@B.com" "secret1").name = jsTrim n ∧
      (mkUserData bRaw " A " "A@B.com" "secret1").email = jsTrim (jsToLower em) ∧
      (mkUserData bRaw " A " "A@B.com" "secret1").phone = bRaw.phone.map jsTrim := by
  have hmem : mkUserData bRaw " A " "A@B.com" "secret1" ∈ (signupPost (some bRaw) w9).2 := by
    decide
  exact ⟨hmem, persisted_record_normalized bRaw w9 _ hmem⟩

/-- Claim C10: a create failure carrying code 11000 whose keyPattern is
absent or empty answers 400 with the literal message "undefined already
exists", the text the template literal produces for an undefined field. -/
theorem duplicate_key_missing_pattern (b : Body) (n em p : String)
    (w : DbWorld) (e : JsError)
    (hv : validFields b n em p) (hc : w.connectResult = none)
    (hm : em ∉ w.store)
    (hcr : w.createResult (mkUserData b n em p) = Sum.inl e)
    (hcode : e.code = some 11000)
    (hkp : e.keyPattern = none ∨ e.keyPattern = some []) :
    signupPost (some b) w =
      (handleError "undefined already exists" 400, [mkUserData b n em p]) := by
  rw [signupPost_valid b n em p w hv]
  have hfield : dupField e.keyPattern = "undefined" := by
    rcases hkp with hkp | hkp <;> simp [dupField, hkp]
  simp [dbPhase, hc, hm, hcr, mapDbError, hcode, hfield]

def e10 : JsError :=
  { code := some 11000, keyPattern := none, isError := true,
    name := "MongoServerError", errors := [],
    message := "E11000 duplicate key error" }

def w10 : DbWorld :=
  { connectResult := none, store := [], createResult := fun _ => Sum.inl e10 }

/-- Concrete run of duplicate_key_missing_pattern: a duplicate-key error
without a keyPattern answers 400 with the message naming undefined. -/
theorem duplicate_key_missing_pattern_witness :
    signupPost (some bOk) w10 =
      (handleError "undefined already exists" 400,
       [mkUserData bOk "A" "a@b.com" "secret1"]) :=
  duplicate_key_missing_pattern bOk "A" "a@b.com" "secret1" w10 e10
    (by decide) rfl (by decide) rfl rfl (Or.inl rfl)

end Signup
